import Mathlib

set_option linter.unusedVariables false

/-!
Verification of the bitburn batch-calculation core
(`src/lib/thread-utils.ts` and `src/scripts/deploy-scripts.ts`).

JavaScript numbers are embedded as rationals (`ℚ`); `Math.floor` and
`Math.ceil` are `Int.floor` and `Int.ceil`; the transcendental
`Math.log` is embedded as `Real.log`, so the functions built on it land
in `ℝ`.  Ambient environment lookups (`ns.getPlayer()`,
`ns.getServerSecurityLevel(...)`, `ns.fileExists("Formulas.exe")`,
duration estimates, the Formulas oracle results) are modelled as fields
of an `NS` record holding the values those calls return during one
calculation cycle.
-/

namespace Bitburn

/-- Player statistics read through `ns.getPlayer()`:
`skills.hacking`, `mults.hacking_money` and `mults.hacking_grow`. -/
structure Player where
  hackingSkill : ℚ
  hackingMoney : ℚ
  hackingGrow : ℚ

/-- The `Target` wrapper of the repository: cached server statistics
(`target.hackDifficulty`, `target.moneyMax`, `target.moneyAvailable`). -/
structure Target where
  hackDifficulty : ℚ
  moneyMax : ℚ
  moneyAvailable : ℚ

/-- The ambient Netscript environment for one calculation cycle: the
player, whether `Formulas.exe` exists, the values the Formulas oracle
would return, the per-server lookups for the single target of the
cycle, and the three duration estimates. -/
structure NS where
  player : Player
  hasFormulas : Bool
  formulasHackPercent : ℚ
  formulasGrowThreads : ℚ
  serverRequiredHackingLevel : ℚ
  serverSecurityLevel : ℚ
  serverGrowth : ℚ
  hackTime : ℚ
  growTime : ℚ
  weakenTime : ℚ
  usableHosts : List String

/-- The `Metrics` record of the repository: the target plus the
operator configuration `greed` and `taskDelay`. -/
structure Metrics where
  target : Target
  greed : ℚ
  taskDelay : ℚ

/-- The `Controller` record: carries the metrics and the target. -/
structure Controller where
  metrics : Metrics
  target : Target

/-- Modelled from the spec: `clamp` is imported from `/lib/misc`, a file
that is not under `src/`.  The spec uses it only as
`clamp(value, 0, 1)`, restricting a value to the interval `[lo, hi]`. -/
def clamp (value lo hi : ℚ) : ℚ :=
  min (max value lo) hi

/-- `getHackEffect` of `src/lib/thread-utils.ts` (lines 50-68): the
analytic fraction of money stolen per hack thread. -/
def getHackEffect (ns : NS) (target : Target) : ℚ :=
  let hackDifficulty := target.hackDifficulty
  let difficultyMultiplier := (100 - hackDifficulty) / 100
  let hackStealMultiplier := ns.player.hackingMoney
  let playerSkill := ns.player.hackingSkill
  let requiredSkill := ns.serverRequiredHackingLevel
  let skillMultiplier := (playerSkill - (requiredSkill - 1)) / playerSkill
  let balanceFactor : ℚ := 240
  clamp (difficultyMultiplier * skillMultiplier * hackStealMultiplier / balanceFactor) 0 1

/-- The hack-percent value selected inside `getHackThreads`: the
Formulas oracle when `Formulas.exe` exists, the analytic
`getHackEffect` otherwise. -/
def selectedHackPercent (ns : NS) (metrics : Metrics) : ℚ :=
  if ns.hasFormulas then ns.formulasHackPercent else getHackEffect ns metrics.target

/-- `getHackThreads` of `src/lib/thread-utils.ts` (lines 27-44):
`Math.floor(metrics.greed / hackPercent)` over the selected
hack-percent path. -/
def getHackThreads (ns : NS) (metrics : Metrics) : ℤ :=
  let hackPercent := selectedHackPercent ns metrics
  ⌊metrics.greed / hackPercent⌋

/-- The weaken threads offsetting hack threads, as computed on line 10
of `src/lib/thread-utils.ts`: `Math.ceil(hackThreads / 25)`. -/
def hackWeakenThreads (hackThreads : ℤ) : ℤ :=
  ⌈(hackThreads : ℚ) / 25⌉

/-- The weaken threads offsetting grow threads, as computed on line 14
of `src/lib/thread-utils.ts`: `Math.ceil(growThreads / 12.5)`. -/
def growWeakenThreads (growThreads : ℤ) : ℤ :=
  ⌈(growThreads : ℚ) / 12.5⌉

/-- `growthAnalyzeDynamic` of `src/lib/thread-utils.ts` (lines
110-129): analytic estimate of the grow threads needed for a given
money multiplier.  `Math.log` becomes `Real.log`. -/
noncomputable def growthAnalyzeDynamic (ns : NS) (target : Target) (multiplier : ℚ) : ℝ :=
  let hackDifficulty := ns.serverSecurityLevel
  let baseGrowthRate : ℚ := 1.003
  let adjustedGrowthRate := min (1 + (baseGrowthRate - 1) / hackDifficulty) 1.0035
  let serverGrowthPercent := ns.serverGrowth / 100
  let growMultiplier := ns.player.hackingGrow
  Real.log (multiplier : ℝ) /
    (Real.log (adjustedGrowthRate : ℝ) * (growMultiplier : ℝ) * (serverGrowthPercent : ℝ))

/-- `calculateThreads` of `src/lib/thread-utils.ts` (lines 8-23): the
four-element thread vector
`[hackThreads, hackWeakenThreads, growThreads, growWeakenThreads]`,
with the grow component `Math.floor(growthAnalyzeDynamic(target, 1 + greed))`. -/
noncomputable def calculateThreads (ns : NS) (metrics : Metrics) : List ℤ :=
  let hackThreads := getHackThreads ns metrics
  let growThreads := ⌊growthAnalyzeDynamic ns metrics.target (1 + metrics.greed)⌋
  [hackThreads, hackWeakenThreads hackThreads, growThreads, growWeakenThreads growThreads]

/-- `getGrowThreads` of `src/lib/thread-utils.ts` (lines 72-91):
oracle grow threads when `Formulas.exe` exists, otherwise the analytic
estimate at multiplier `maxMoney / Math.max(money, 1)`; the result is
passed through `Math.ceil`. -/
noncomputable def getGrowThreads (ns : NS) (target : Target) : ℤ :=
  let maxMoney := target.moneyMax
  let money := target.moneyAvailable
  let growThreads : ℝ :=
    if ns.hasFormulas then (ns.formulasGrowThreads : ℝ)
    else growthAnalyzeDynamic ns target (maxMoney / max money 1)
  ⌈growThreads⌉

/-- `calculateDelays` of `src/lib/thread-utils.ts` (lines 131-154):
the four-element delay vector
`[hackDelay, weaken1Delay, growDelay, weaken2Delay]`. -/
def calculateDelays (ns : NS) (controller : Controller) : List ℚ :=
  let taskDelay := controller.metrics.taskDelay
  let hackDelay := ns.weakenTime - ns.hackTime - taskDelay
  let weaken1Delay : ℚ := 0
  let growDelay := ns.weakenTime - ns.growTime + taskDelay
  let weaken2Delay := taskDelay * 2
  [hackDelay, weaken1Delay, growDelay, weaken2Delay]

/-- The kind of a scheduled operation. -/
inductive TaskKind where
  | extract
  | fortify
  | replenish
deriving DecidableEq

/-- One scheduled operation: kind, thread count and launch delay. -/
structure Task where
  kind : TaskKind
  threads : ℤ
  delay : ℚ

/-- Modelled from the spec: `createBatchTasks` lives in
`/hacking/task`, a file that is not under `src/`.  Per the spec the
BatchAssembler wraps the four thread counts and the four delays into
Tasks in the fixed order Extract, Fortify, Replenish, Fortify, and the
thread count of each Task is at least 1 (the spec states this floor is
enforced at the BatchAssembler boundary even when the raw computation
rounds to 0). -/
noncomputable def createBatchTasks (ns : NS) (controller : Controller) : List Task :=
  let threads := calculateThreads ns controller.metrics
  let delays := calculateDelays ns controller
  [ { kind := TaskKind.extract, threads := max 1 (threads.getD 0 0), delay := delays.getD 0 0 },
    { kind := TaskKind.fortify, threads := max 1 (threads.getD 1 0), delay := delays.getD 1 0 },
    { kind := TaskKind.replenish, threads := max 1 (threads.getD 2 0), delay := delays.getD 2 0 },
    { kind := TaskKind.fortify, threads := max 1 (threads.getD 3 0), delay := delays.getD 3 0 } ]

/-- The `Batch` interface of `src/scripts/deploy-scripts.ts` (lines
39-43): target, usable hosts and the task list. -/
structure Batch where
  target : Target
  hosts : List String
  tasks : List Task

/-- `createBatch` of `src/scripts/deploy-scripts.ts` (lines 49-58):
assembles the batch from the created tasks, the controller target and
the usable hosts. -/
noncomputable def createBatch (ns : NS) (controller : Controller) : Batch :=
  let tasks := createBatchTasks ns controller
  { target := controller.target, hosts := ns.usableHosts, tasks := tasks }

/-! ### Concrete sample inputs used by witnesses and counterexamples -/

/-- A sample target; `moneyMax / moneyAvailable = (1003/1000) ^ 3`. -/
def sampleTarget : Target :=
  { hackDifficulty := 1, moneyMax := 1009027027, moneyAvailable := 1000000000 }

/-- A sample player with all multipliers 1 and skill 100. -/
def samplePlayer : Player :=
  { hackingSkill := 100, hackingMoney := 1, hackingGrow := 1 }

/-- A sample environment without the Formulas oracle, with duration
estimates hackTime 5, growTime 10, weakenTime 20 (the worked example of
the spec) and a fully relaxed server (security level 1, growth 100). -/
def sampleNS : NS :=
  { player := samplePlayer
    hasFormulas := false
    formulasHackPercent := 0
    formulasGrowThreads := 0
    serverRequiredHackingLevel := 1
    serverSecurityLevel := 1
    serverGrowth := 100
    hackTime := 5
    growTime := 10
    weakenTime := 20
    usableHosts := [] }

/-- Sample metrics: `1 + greed = (1003/1000) ^ 2` and taskDelay 2. -/
def sampleMetrics : Metrics :=
  { target := sampleTarget, greed := 6009 / 1000000, taskDelay := 2 }

/-- A sample controller over the sample metrics. -/
def sampleController : Controller :=
  { metrics := sampleMetrics, target := sampleTarget }

/-- An environment whose Formulas oracle reports a negative hack
percent, and metrics with greed one half. -/
def oracleNS : NS :=
  { sampleNS with hasFormulas := true, formulasHackPercent := -1 / 10 }

/-- Metrics with greed one half, used with `oracleNS`. -/
def halfGreedMetrics : Metrics :=
  { target := sampleTarget, greed := 1 / 2, taskDelay := 2 }

/-- Default task used when indexing task lists. -/
def defaultTask : Task :=
  { kind := TaskKind.extract, threads := 1, delay := 0 }

/-! ### Helper lemmas -/

/-- The sample spacing is positive. -/
lemma sample_taskDelay_pos : 0 < sampleController.metrics.taskDelay := by
  norm_num [sampleController, sampleMetrics]

/-- The sample weaken time dominates both other durations plus spacing. -/
lemma sample_weakenTime_long :
    max sampleNS.hackTime sampleNS.growTime + sampleController.metrics.taskDelay ≤
      sampleNS.weakenTime := by
  norm_num [max_def, sampleNS, sampleController, sampleMetrics]

/-- Value of the selected hack percent at the sample input. -/
lemma selectedHackPercent_sample :
    selectedHackPercent sampleNS sampleMetrics = 33 / 8000 := by
  norm_num [selectedHackPercent, getHackEffect, clamp, sampleNS, sampleMetrics,
    sampleTarget, samplePlayer, max_def, min_def]

/-- Value of the selected hack percent at the degenerate oracle input. -/
lemma selectedHackPercent_oracle :
    selectedHackPercent oracleNS halfGreedMetrics = -1 / 10 := by
  norm_num [selectedHackPercent, oracleNS, sampleNS, halfGreedMetrics]

/-- Logarithm quotient at an exact power of the growth rate 1003/1000. -/
lemma log_pow_div (n : ℕ) :
    Real.log ((1003 / 1000 : ℝ) ^ n) / Real.log ((1003 / 1000 : ℝ)) = n := by
  rw [Real.log_pow]
  have hpos : 0 < Real.log ((1003 / 1000 : ℝ)) := Real.log_pos (by norm_num)
  exact mul_div_cancel_right₀ _ hpos.ne'

/-- At the sample environment (security level 1, growth 100, grow
multiplier 1) the analytic grow-thread estimate at a multiplier that is
an exact power of 1003/1000 equals the exponent. -/
lemma growthAnalyzeDynamic_sample (q : ℚ) (n : ℕ)
    (hq : (q : ℝ) = (1003 / 1000 : ℝ) ^ n) :
    growthAnalyzeDynamic sampleNS sampleTarget q = n := by
  have hmin : (min (1 + ((1.003 : ℚ) - 1) / sampleNS.serverSecurityLevel) 1.0035 : ℚ) =
      1003 / 1000 := by
    norm_num [sampleNS, min_def]
  show Real.log (q : ℝ) /
      (Real.log ((min (1 + ((1.003 : ℚ) - 1) / sampleNS.serverSecurityLevel) 1.0035 : ℚ) : ℝ) *
        (sampleNS.player.hackingGrow : ℝ) * ((sampleNS.serverGrowth / 100 : ℚ) : ℝ)) = n
  rw [hmin, hq]
  norm_num [sampleNS, samplePlayer, log_pow_div]

/-- Component values of the delay vector. -/
lemma calculateDelays_getD (ns : NS) (c : Controller) :
    (calculateDelays ns c).getD 0 0 = ns.weakenTime - ns.hackTime - c.metrics.taskDelay ∧
    (calculateDelays ns c).getD 1 0 = 0 ∧
    (calculateDelays ns c).getD 2 0 = ns.weakenTime - ns.growTime + c.metrics.taskDelay ∧
    (calculateDelays ns c).getD 3 0 = c.metrics.taskDelay * 2 :=
  ⟨rfl, rfl, rfl, rfl⟩

/-! ### Claims -/

/-- Claim C2: for every input, `calculateDelays` computes exactly the four
offsets hackDelay = weakenTime - hackTime - taskDelay, weaken1Delay = 0,
growDelay = weakenTime - growTime + taskDelay, weaken2Delay = taskDelay * 2,
in this vector order. -/
theorem calculateDelays_eq (ns : NS) (c : Controller) :
    calculateDelays ns c =
      [ns.weakenTime - ns.hackTime - c.metrics.taskDelay, 0,
       ns.weakenTime - ns.growTime + c.metrics.taskDelay,
       c.metrics.taskDelay * 2] :=
  rfl

/-- Claim C1: when taskDelay is positive (the spec requires a positive
spacing) and weakenTime is at least max(hackTime, growTime) + taskDelay, the
landing times Extract = hackDelay + hackTime, Fortify1 = weaken1Delay +
weakenTime, Replenish = growDelay + growTime, Fortify2 = weaken2Delay +
weakenTime computed from the output of `calculateDelays` are strictly
increasing in this order, each consecutive pair separated by at least
taskDelay. -/
theorem calculateDelays_landing_order (ns : NS) (c : Controller)
    (hpos : 0 < c.metrics.taskDelay)
    (hlong : max ns.hackTime ns.growTime + c.metrics.taskDelay ≤ ns.weakenTime) :
    ((calculateDelays ns c).getD 0 0 + ns.hackTime <
        (calculateDelays ns c).getD 1 0 + ns.weakenTime ∧
      (calculateDelays ns c).getD 1 0 + ns.weakenTime <
        (calculateDelays ns c).getD 2 0 + ns.growTime ∧
      (calculateDelays ns c).getD 2 0 + ns.growTime <
        (calculateDelays ns c).getD 3 0 + ns.weakenTime) ∧
    (c.metrics.taskDelay ≤
        ((calculateDelays ns c).getD 1 0 + ns.weakenTime) -
          ((calculateDelays ns c).getD 0 0 + ns.hackTime) ∧
      c.metrics.taskDelay ≤
        ((calculateDelays ns c).getD 2 0 + ns.growTime) -
          ((calculateDelays ns c).getD 1 0 + ns.weakenTime) ∧
      c.metrics.taskDelay ≤
        ((calculateDelays ns c).getD 3 0 + ns.weakenTime) -
          ((calculateDelays ns c).getD 2 0 + ns.growTime)) := by
  obtain ⟨h0, h1, h2, h3⟩ := calculateDelays_getD ns c
  rw [h0, h1, h2, h3]
  refine ⟨⟨?_, ?_, ?_⟩, ?_, ?_, ?_⟩ <;> linarith

/-- Witness for claim C1 at the worked example of the spec: hackTime 5,
growTime 10, weakenTime 20, taskDelay 2. -/
theorem calculateDelays_landing_order_witness :
    (0 < sampleController.metrics.taskDelay ∧
      max sampleNS.hackTime sampleNS.growTime + sampleController.metrics.taskDelay ≤
        sampleNS.weakenTime) ∧
    (((calculateDelays sampleNS sampleController).getD 0 0 + sampleNS.hackTime <
        (calculateDelays sampleNS sampleController).getD 1 0 + sampleNS.weakenTime ∧
      (calculateDelays sampleNS sampleController).getD 1 0 + sampleNS.weakenTime <
        (calculateDelays sampleNS sampleController).getD 2 0 + sampleNS.growTime ∧
      (calculateDelays sampleNS sampleController).getD 2 0 + sampleNS.growTime <
        (calculateDelays sampleNS sampleController).getD 3 0 + sampleNS.weakenTime) ∧
    (sampleController.metrics.taskDelay ≤
        ((calculateDelays sampleNS sampleController).getD 1 0 + sampleNS.weakenTime) -
          ((calculateDelays sampleNS sampleController).getD 0 0 + sampleNS.hackTime) ∧
      sampleController.metrics.taskDelay ≤
        ((calculateDelays sampleNS sampleController).getD 2 0 + sampleNS.growTime) -
          ((calculateDelays sampleNS sampleController).getD 1 0 + sampleNS.weakenTime) ∧
      sampleController.metrics.taskDelay ≤
        ((calculateDelays sampleNS sampleController).getD 3 0 + sampleNS.weakenTime) -
          ((calculateDelays sampleNS sampleController).getD 2 0 + sampleNS.growTime))) :=
  ⟨⟨sample_taskDelay_pos, sample_weakenTime_long⟩,
    calculateDelays_landing_order sampleNS sampleController
      sample_taskDelay_pos sample_weakenTime_long⟩

/-- Claim C10 counterexample: the first element of the delay vector is the
hack delay, not 0; at weakenTime 20, hackTime 5, taskDelay 2 it equals 13. -/
theorem calculateDelays_head_counterexample :
    (calculateDelays sampleNS sampleController).getD 0 0 = 13 ∧
    (calculateDelays sampleNS sampleController).getD 0 0 ≠ 0 := by
  obtain ⟨h0, -, -, -⟩ := calculateDelays_getD sampleNS sampleController
  rw [h0]
  norm_num [sampleNS, sampleController, sampleMetrics]

/-- Claim C10 amended: for every input, the second element of the delay
vector returned by `calculateDelays` (the first weaken delay) is 0; the
first element is the hack delay weakenTime - hackTime - taskDelay. -/
theorem calculateDelays_second_zero (ns : NS) (c : Controller) :
    (calculateDelays ns c).getD 1 0 = 0 ∧
    (calculateDelays ns c).getD 0 0 = ns.weakenTime - ns.hackTime - c.metrics.taskDelay :=
  ⟨rfl, rfl⟩

/-- Claim C4: the analytic extraction fraction `getHackEffect` equals the
clamp to [0, 1] of difficultyMultiplier * skillMultiplier *
extractionMultiplier / 240, with no other clamping, so it always lies in
[0, 1]; the skill multiplier itself is not clamped and may be negative. -/
theorem getHackEffect_formula (ns : NS) (t : Target) :
    getHackEffect ns t =
      clamp ((100 - t.hackDifficulty) / 100 *
        ((ns.player.hackingSkill - (ns.serverRequiredHackingLevel - 1)) /
          ns.player.hackingSkill) *
        ns.player.hackingMoney / 240) 0 1 ∧
    0 ≤ getHackEffect ns t ∧ getHackEffect ns t ≤ 1 := by
  refine ⟨rfl, ?_, ?_⟩
  · exact le_min (le_max_right _ _) zero_le_one
  · exact min_le_right _ _

/-- Claim C3: when the selected hack-percent path yields a positive
fraction and greed is non-negative, `getHackThreads` equals
floor(greed / fraction) and is a non-negative integer. -/
theorem getHackThreads_floor_nonneg (ns : NS) (m : Metrics)
    (hfrac : 0 < selectedHackPercent ns m) (hgreed : 0 ≤ m.greed) :
    getHackThreads ns m = ⌊m.greed / selectedHackPercent ns m⌋ ∧
    0 ≤ getHackThreads ns m := by
  refine ⟨rfl, ?_⟩
  exact Int.floor_nonneg.mpr (div_nonneg hgreed hfrac.le)

/-- Witness for claim C3 at the sample input, where the analytic fraction
is 33/8000. -/
theorem getHackThreads_floor_nonneg_witness :
    (0 < selectedHackPercent sampleNS sampleMetrics ∧ 0 ≤ sampleMetrics.greed) ∧
    (getHackThreads sampleNS sampleMetrics =
        ⌊sampleMetrics.greed / selectedHackPercent sampleNS sampleMetrics⌋ ∧
      0 ≤ getHackThreads sampleNS sampleMetrics) :=
  ⟨⟨by rw [selectedHackPercent_sample]; norm_num, by norm_num [sampleMetrics]⟩,
    getHackThreads_floor_nonneg sampleNS sampleMetrics
      (by rw [selectedHackPercent_sample]; norm_num) (by norm_num [sampleMetrics])⟩

/-- Claim C7: the fortify thread counts are the exact integer-ceiling
ratios ceil(t / 25) and ceil(t / 12.5); both are non-negative for
non-negative t, with the boundary values 0, 25, 26 and 0, 12, 13 mapping to
0, 1, 2 respectively. -/
theorem weakenThreads_ceiling (t : ℤ) (ht : 0 ≤ t) :
    hackWeakenThreads t = ⌈(t : ℚ) / 25⌉ ∧
    growWeakenThreads t = ⌈(t : ℚ) / 12.5⌉ ∧
    0 ≤ hackWeakenThreads t ∧ 0 ≤ growWeakenThreads t ∧
    hackWeakenThreads 0 = 0 ∧ hackWeakenThreads 25 = 1 ∧ hackWeakenThreads 26 = 2 ∧
    growWeakenThreads 0 = 0 ∧ growWeakenThreads 12 = 1 ∧ growWeakenThreads 13 = 2 := by
  have hq : (0 : ℚ) ≤ (t : ℚ) := by exact_mod_cast ht
  refine ⟨rfl, rfl,
    Int.ceil_nonneg (div_nonneg hq (by norm_num)),
    Int.ceil_nonneg (div_nonneg hq (by norm_num)),
    by norm_num [hackWeakenThreads],
    by norm_num [hackWeakenThreads, Int.ceil_eq_iff],
    by norm_num [hackWeakenThreads, Int.ceil_eq_iff],
    by norm_num [growWeakenThreads],
    by norm_num [growWeakenThreads, Int.ceil_eq_iff],
    by norm_num [growWeakenThreads, Int.ceil_eq_iff]⟩

/-- Witness for claim C7 at t = 26. -/
theorem weakenThreads_ceiling_witness :
    0 ≤ (26 : ℤ) ∧
    (hackWeakenThreads 26 = ⌈((26 : ℤ) : ℚ) / 25⌉ ∧
      growWeakenThreads 26 = ⌈((26 : ℤ) : ℚ) / 12.5⌉ ∧
      0 ≤ hackWeakenThreads 26 ∧ 0 ≤ growWeakenThreads 26 ∧
      hackWeakenThreads 0 = 0 ∧ hackWeakenThreads 25 = 1 ∧ hackWeakenThreads 26 = 2 ∧
      growWeakenThreads 0 = 0 ∧ growWeakenThreads 12 = 1 ∧ growWeakenThreads 13 = 2) :=
  ⟨by norm_num, weakenThreads_ceiling 26 (by norm_num)⟩

/-- Claim C9 counterexample: with an oracle fraction of -1/10 and greed
1/2, `getHackThreads` returns the negative thread count -5 instead of
surfacing an explicit failure. -/
theorem getHackThreads_degenerate_counterexample :
    selectedHackPercent oracleNS halfGreedMetrics < 0 ∧
    getHackThreads oracleNS halfGreedMetrics = -5 ∧
    getHackThreads oracleNS halfGreedMetrics < 0 := by
  have hval : getHackThreads oracleNS halfGreedMetrics = -5 := by
    show ⌊halfGreedMetrics.greed / selectedHackPercent oracleNS halfGreedMetrics⌋ = -5
    rw [selectedHackPercent_oracle]
    norm_num [halfGreedMetrics, Int.floor_eq_iff]
  refine ⟨?_, hval, ?_⟩
  · rw [selectedHackPercent_oracle]; norm_num
  · rw [hval]; norm_num

/-- Claim C9 amended: `getHackThreads` performs no degeneracy check: it
always returns floor(greed / fraction); when the selected fraction is
negative and greed positive the result is a negative thread count (and a
zero fraction makes the JavaScript division produce Infinity); no explicit
DegenerateModel failure is surfaced. -/
theorem getHackThreads_no_degenerate_guard (ns : NS) (m : Metrics)
    (hfrac : selectedHackPercent ns m < 0) (hgreed : 0 < m.greed) :
    getHackThreads ns m = ⌊m.greed / selectedHackPercent ns m⌋ ∧
    getHackThreads ns m < 0 := by
  refine ⟨rfl, ?_⟩
  have hneg : m.greed / selectedHackPercent ns m < 0 := div_neg_of_pos_of_neg hgreed hfrac
  have hfl : ¬ (0 : ℤ) ≤ ⌊m.greed / selectedHackPercent ns m⌋ := by
    rw [Int.floor_nonneg]
    exact not_le.mpr hneg
  exact not_le.mp hfl

/-- Witness for amended claim C9 at the oracle environment with fraction
-1/10 and greed 1/2. -/
theorem getHackThreads_no_degenerate_guard_witness :
    (selectedHackPercent oracleNS halfGreedMetrics < 0 ∧ 0 < halfGreedMetrics.greed) ∧
    (getHackThreads oracleNS halfGreedMetrics =
        ⌊halfGreedMetrics.greed / selectedHackPercent oracleNS halfGreedMetrics⌋ ∧
      getHackThreads oracleNS halfGreedMetrics < 0) :=
  ⟨⟨by rw [selectedHackPercent_oracle]; norm_num, by norm_num [halfGreedMetrics]⟩,
    getHackThreads_no_degenerate_guard oracleNS halfGreedMetrics
      (by rw [selectedHackPercent_oracle]; norm_num) (by norm_num [halfGreedMetrics])⟩

/-- Claim C8: every one of the four tasks of the batch produced by
`createBatch` has a thread count of at least 1, even when the raw
floor/ceiling computation rounds to 0 (the list has exactly four tasks). -/
theorem createBatch_tasks_threads_pos (ns : NS) (c : Controller) :
    (createBatch ns c).tasks.length = 4 ∧
    1 ≤ ((createBatch ns c).tasks.getD 0 defaultTask).threads ∧
    1 ≤ ((createBatch ns c).tasks.getD 1 defaultTask).threads ∧
    1 ≤ ((createBatch ns c).tasks.getD 2 defaultTask).threads ∧
    1 ≤ ((createBatch ns c).tasks.getD 3 defaultTask).threads := by
  refine ⟨rfl, ?_, ?_, ?_, ?_⟩ <;> exact le_max_left 1 _

/-- Claim C6: for every environment, target and multiplier m > 0, the
analytic grow-thread estimate equals ln(m) divided by
ln(adjustedGrowthRate) * regrowthMultiplier * (growthRate / 100), where
adjustedGrowthRate = min(1 + 0.003 / hardening, 1.0035): the growth rate
is capped at exactly 1.0035 and the base increment is exactly 0.003
divided by the hardening (security) level. -/
theorem growthAnalyzeDynamic_formula (ns : NS) (t : Target) (m : ℚ) (hm : 0 < m) :
    growthAnalyzeDynamic ns t m =
      Real.log (m : ℝ) /
        (Real.log ((min (1 + 0.003 / ns.serverSecurityLevel) 1.0035 : ℚ) : ℝ) *
          (ns.player.hackingGrow : ℝ) * ((ns.serverGrowth / 100 : ℚ) : ℝ)) := by
  show Real.log (m : ℝ) /
      (Real.log ((min (1 + ((1.003 : ℚ) - 1) / ns.serverSecurityLevel) 1.0035 : ℚ) : ℝ) *
        (ns.player.hackingGrow : ℝ) * ((ns.serverGrowth / 100 : ℚ) : ℝ)) = _
  norm_num

/-- Witness for claim C6 at the sample environment and multiplier 2. -/
theorem growthAnalyzeDynamic_formula_witness :
    0 < (2 : ℚ) ∧
    growthAnalyzeDynamic sampleNS sampleTarget 2 =
      Real.log ((2 : ℚ) : ℝ) /
        (Real.log ((min (1 + 0.003 / sampleNS.serverSecurityLevel) 1.0035 : ℚ) : ℝ) *
          (sampleNS.player.hackingGrow : ℝ) * ((sampleNS.serverGrowth / 100 : ℚ) : ℝ)) :=
  ⟨by norm_num, growthAnalyzeDynamic_formula sampleNS sampleTarget 2 (by norm_num)⟩

/-- Claim C5 counterexample: at the sample input the batch thread vector
carries a replenish count of 2, computed as the floor of the analytic
estimate at multiplier 1 + greed, while the ceiling of the analytic
estimate at multiplier yieldMax / max(yieldAvailable, 1) is 3 (the value
`getGrowThreads` returns); the batch replenish count is not that ceiling. -/
theorem batch_grow_not_yield_ceiling_counterexample :
    (calculateThreads sampleNS sampleMetrics).getD 2 0 = 2 ∧
    getGrowThreads sampleNS sampleTarget = 3 ∧
    (calculateThreads sampleNS sampleMetrics).getD 2 0 ≠
      ⌈growthAnalyzeDynamic sampleNS sampleTarget
        (sampleTarget.moneyMax / max sampleTarget.moneyAvailable 1)⌉ := by
  have h2 : growthAnalyzeDynamic sampleNS sampleTarget (1 + sampleMetrics.greed) =
      ((2 : ℕ) : ℝ) := by
    apply growthAnalyzeDynamic_sample
    norm_num [sampleMetrics]
  have h3 : growthAnalyzeDynamic sampleNS sampleTarget
      (sampleTarget.moneyMax / max sampleTarget.moneyAvailable 1) = ((3 : ℕ) : ℝ) := by
    apply growthAnalyzeDynamic_sample
    norm_num [sampleTarget, max_def]
  have hbatch : (calculateThreads sampleNS sampleMetrics).getD 2 0 =
      ⌊growthAnalyzeDynamic sampleNS sampleTarget (1 + sampleMetrics.greed)⌋ := rfl
  have hceil : ⌈growthAnalyzeDynamic sampleNS sampleTarget
      (sampleTarget.moneyMax / max sampleTarget.moneyAvailable 1)⌉ = 3 := by
    rw [h3]
    norm_num
  have hgrow : getGrowThreads sampleNS sampleTarget =
      ⌈growthAnalyzeDynamic sampleNS sampleTarget
        (sampleTarget.moneyMax / max sampleTarget.moneyAvailable 1)⌉ := rfl
  refine ⟨?_, ?_, ?_⟩
  · rw [hbatch, h2]
    norm_num
  · rw [hgrow, hceil]
  · rw [hbatch, h2, hceil]
    norm_num

/-- Claim C5 amended: the standalone `getGrowThreads` (analytic path) is
the ceiling of the analytic estimate at multiplier
yieldMax / max(yieldAvailable, 1), but the replenish count in the batch
thread vector `calculateThreads` is the floor of the analytic estimate at
multiplier 1 + greed: it is rounded down, not up, and depends on greed
rather than on yieldAvailable and yieldMax. -/
theorem grow_thread_paths (ns : NS) (t : Target) (m : Metrics)
    (h : ns.hasFormulas = false) :
    getGrowThreads ns t =
      ⌈growthAnalyzeDynamic ns t (t.moneyMax / max t.moneyAvailable 1)⌉ ∧
    (calculateThreads ns m).getD 2 0 =
      ⌊growthAnalyzeDynamic ns m.target (1 + m.greed)⌋ := by
  constructor
  · simp [getGrowThreads, h]
  · rfl

/-- Witness for amended claim C5 at the sample input. -/
theorem grow_thread_paths_witness :
    sampleNS.hasFormulas = false ∧
    (getGrowThreads sampleNS sampleTarget =
        ⌈growthAnalyzeDynamic sampleNS sampleTarget
          (sampleTarget.moneyMax / max sampleTarget.moneyAvailable 1)⌉ ∧
      (calculateThreads sampleNS sampleMetrics).getD 2 0 =
        ⌊growthAnalyzeDynamic sampleNS sampleMetrics.target (1 + sampleMetrics.greed)⌋) :=
  ⟨rfl, grow_thread_paths sampleNS sampleTarget sampleMetrics rfl⟩

end Bitburn
